import Mathlib

/-!
Shallow embedding of `packages/vscode-plugin/src/extension.ts` (the Swan
VS Code extension).  The extension host's side-effecting API calls are
recorded as an explicit trace of `Effect`s; the host-provided persistent
key-value store (`context.globalState`) is an association list; command
handlers are functions from their user-supplied inputs to the effect
trace they emit.
-/

namespace Swan

/-- A disposable handle that can be pushed onto `context.subscriptions`. -/
inductive Handle where
  | commandRegistration (id : String)
  | statusBarHandle
  | eventSubscription
  deriving DecidableEq, Repr

/-- One observable call into the VS Code host API, in program order. -/
inductive Effect where
  | consoleLog (msg : String)
  | registerCommand (id : String)
  | showInformationMessage (msg : String) (choices : List String)
  | openExternal (uri : String)
  | showInputBox (prompt : String) (placeHolder : String)
  | createTerminal (name : String)
  | sendText (text : String)
  | showTerminal (name : String)
  | createStatusBarItemCall
  | statusBarShowCall
  | subscriptionsPush (handles : List Handle)
  | onDidChangeConfigurationCall
  | executeCommand (id : String)
  | globalStateUpdate (key : String) (value : Bool)
  deriving DecidableEq, Repr

/-- `vscode.StatusBarAlignment`. -/
inductive StatusBarAlignment where
  | left
  | right
  deriving DecidableEq, Repr

/-- A status-bar item as a record of its host-visible fields. -/
structure StatusBarItem where
  alignment : StatusBarAlignment
  priority : Nat
  text : String
  tooltip : Option String
  command : Option String
  visible : Bool
  deriving DecidableEq, Repr

/-- `vscode.window.createStatusBarItem(alignment, priority)`: a fresh item
with empty text, no tooltip, no command, not yet shown. -/
def createStatusBarItem (alignment : StatusBarAlignment) (priority : Nat) :
    StatusBarItem :=
  { alignment := alignment, priority := priority, text := "",
    tooltip := none, command := none, visible := false }

/-- The extension's persistent key-value store (`context.globalState`),
restricted to the Boolean values this extension stores. -/
abbrev GlobalState : Type := List (String × Bool)

/-- `context.globalState.get(key, default)`. -/
def globalStateGet (s : GlobalState) (key : String) (dflt : Bool) : Bool :=
  match s.lookup key with
  | some v => v
  | none => dflt

/-- `context.globalState.update(key, value)`. -/
def globalStateUpdateStore (s : GlobalState) (key : String) (v : Bool) :
    GlobalState :=
  (key, v) :: (s.filter fun p => p.1 ≠ key)

/-- A fresh installation: nothing persisted yet. -/
def freshGlobalState : GlobalState := []

/-- `vscode.ExtensionContext`, reduced to the capabilities the source
uses: the disposal list and the persistent store. -/
structure ExtensionContext where
  subscriptions : List Handle
  globalState : GlobalState
  deriving DecidableEq, Repr

/-- The workspace configuration for the `swan` namespace, as read back by
`vscode.workspace.getConfiguration("swan")`; `logLevel` is the value the
host resolves for `swan.logLevel`. -/
structure Configuration where
  logLevel : String
  deriving DecidableEq, Repr

/-- A configuration-change event; `affected` lists the configuration
namespaces the change affects, so `event.affectsConfiguration(ns)` is
membership. -/
structure ConfigurationChangeEvent where
  affected : List String
  deriving DecidableEq, Repr

/-- `event.affectsConfiguration(section)`. -/
def ConfigurationChangeEvent.affectsConfiguration
    (e : ConfigurationChangeEvent) (section_ : String) : Bool :=
  section_ ∈ e.affected

/-- The handler registered for `swan.helloWorld`. -/
def helloWorldHandler : List Effect :=
  [Effect.showInformationMessage "Hello World from Swan!" []]

/-- The handler registered for `swan.openDocs`. -/
def openDocsHandler : List Effect :=
  [Effect.openExternal "https://your-swan-docs-url.com"]

/-- JavaScript truthiness of the value resolved from `showInputBox`:
`undefined` (cancelled) and the empty string are falsy. -/
def inputTruthy : Option String → Bool
  | none => false
  | some s => s ≠ ""

/-- The handler registered for `swan.createProject`.  `input` is the
value the `showInputBox` promise resolves with (`none` = cancelled). -/
def createProjectHandler (input : Option String) : List Effect :=
  Effect.showInputBox "Enter project name" "my-swan-project" ::
    (if inputTruthy input then
      let projectName := input.getD ""
      [Effect.createTerminal "Swan Project Setup",
       Effect.sendText ("pnpm create swan-app " ++ projectName),
       Effect.showTerminal "Swan Project Setup",
       Effect.showInformationMessage
         ("Creating Swan project: " ++ projectName) []]
    else [])

/-- The listener passed to `vscode.workspace.onDidChangeConfiguration`.
`config` is the configuration current when the listener runs. -/
def configurationChangeListener (event : ConfigurationChangeEvent)
    (config : Configuration) : List Effect :=
  if event.affectsConfiguration "swan" then
    [Effect.consoleLog ("Swan log level changed to: " ++ config.logLevel)]
  else []

/-- The status-bar item as `activate` leaves it: created right-aligned at
priority 100, then its text, tooltip and command assigned, then shown. -/
def activateStatusBarItem : StatusBarItem :=
  let item := createStatusBarItem StatusBarAlignment.right 100
  let item := { item with text := "$(rocket) Swan" }
  let item := { item with tooltip := some "Swan Development Tools" }
  let item := { item with command := some "swan.helloWorld" }
  { item with visible := true }

/-- The welcome notification effect shown on first activation. -/
def welcomeEffect : Effect :=
  Effect.showInformationMessage "Welcome to Swan VS Code Extension! 🦢"
    ["Open Docs", "Create Project"]

/-- The `.then` continuation of the welcome notification: `selection` is
the choice the promise resolves with (`none` = dismissed). -/
def welcomeThen (selection : Option String) : List Effect :=
  if selection = some "Open Docs" then
    [Effect.executeCommand "swan.openDocs"]
  else if selection = some "Create Project" then
    [Effect.executeCommand "swan.createProject"]
  else []

/-- The result of one `activate(context)` call: the effect trace it
emits, the persistent store it leaves behind, the disposal list it leaves
behind, and the status-bar item it created. -/
structure ActivateResult where
  effects : List Effect
  globalState : GlobalState
  subscriptions : List Handle
  statusBarItem : StatusBarItem
  deriving DecidableEq, Repr

/-- `activate(context)`.  `welcomeSelection` is the choice the user makes
on the welcome notification if it is shown (`none` = dismissed); it is
ignored when the notification is not shown. -/
def activate (context : ExtensionContext) (welcomeSelection : Option String) :
    ActivateResult :=
  let hasShownWelcome :=
    globalStateGet context.globalState "swan.hasShownWelcome" false
  let welcomeEffects :=
    if !hasShownWelcome then
      welcomeEffect :: (welcomeThen welcomeSelection ++
        [Effect.globalStateUpdate "swan.hasShownWelcome" true])
    else []
  let newGlobalState :=
    if !hasShownWelcome then
      globalStateUpdateStore context.globalState "swan.hasShownWelcome" true
    else context.globalState
  let pushed := [Handle.commandRegistration "swan.helloWorld",
                 Handle.commandRegistration "swan.openDocs",
                 Handle.commandRegistration "swan.createProject",
                 Handle.statusBarHandle]
  { effects :=
      [Effect.consoleLog "Swan VS Code Extension is now active!",
       Effect.registerCommand "swan.helloWorld",
       Effect.registerCommand "swan.openDocs",
       Effect.registerCommand "swan.createProject",
       Effect.createStatusBarItemCall,
       Effect.statusBarShowCall,
       Effect.subscriptionsPush pushed,
       Effect.onDidChangeConfigurationCall] ++ welcomeEffects,
    globalState := newGlobalState,
    subscriptions := context.subscriptions ++ pushed,
    statusBarItem := activateStatusBarItem }

/-- `deactivate()`. -/
def deactivate : List Effect :=
  [Effect.consoleLog "Swan VS Code Extension is now deactivated"]

/-- The effect traces of successive activations of one installation:
each activation runs on the persistent store the previous one left
behind (a fresh host context each time).  The element at index `i` is
the trace of activation `i`; the welcome selections are given per
activation. -/
def activationTraces : GlobalState → List (Option String) → List (List Effect)
  | _, [] => []
  | gs, sel :: rest =>
      let r := activate { subscriptions := [], globalState := gs } sel
      r.effects :: activationTraces r.globalState rest

/-- Does an effect display an informational notification? -/
def isShowInformationMessage : Effect → Bool
  | Effect.showInformationMessage _ _ => true
  | _ => false

/-- Does an effect request an external open? -/
def isOpenExternal : Effect → Bool
  | Effect.openExternal _ => true
  | _ => false

/-- Does an effect create a terminal? -/
def isCreateTerminal : Effect → Bool
  | Effect.createTerminal _ => true
  | _ => false

/-- Does an effect send text to a terminal? -/
def isSendText : Effect → Bool
  | Effect.sendText _ => true
  | _ => false

/-- Does an effect reveal a terminal? -/
def isShowTerminal : Effect → Bool
  | Effect.showTerminal _ => true
  | _ => false

/-- Does an effect emit a diagnostic trace line? -/
def isConsoleLog : Effect → Bool
  | Effect.consoleLog _ => true
  | _ => false

/-- Does an effect create a status-bar item? -/
def isCreateStatusBarItemCall : Effect → Bool
  | Effect.createStatusBarItemCall => true
  | _ => false

/-- Does an effect show a status-bar item? -/
def isStatusBarShowCall : Effect → Bool
  | Effect.statusBarShowCall => true
  | _ => false

/-- Does an effect write to the persistent store? -/
def isGlobalStateUpdate : Effect → Bool
  | Effect.globalStateUpdate _ _ => true
  | _ => false

/-- The texts of the `sendText` calls in a trace, in order. -/
def sendTexts (es : List Effect) : List String :=
  es.filterMap fun e =>
    match e with
    | Effect.sendText t => some t
    | _ => none

/-- The URIs of the `openExternal` calls in a trace, in order. -/
def openExternalUris (es : List Effect) : List String :=
  es.filterMap fun e =>
    match e with
    | Effect.openExternal u => some u
    | _ => none

/-- `sub` occurs as a substring of `s`. -/
def containsSubstring (s sub : String) : Prop :=
  ∃ pre suf, s = pre ++ sub ++ suf

end Swan

namespace Swan

/-- C4: every invocation of the `swan.helloWorld` command handler, in any
prior state, displays exactly one informational notification, whose text
is the fixed greeting string, and has no other side effect. -/
theorem helloWorld_one_fixed_notification :
    helloWorldHandler =
      [Effect.showInformationMessage "Hello World from Swan!" []]
    ∧ helloWorldHandler.countP isShowInformationMessage = 1 := by
  constructor
  · rfl
  · rfl

/-- C5: every invocation of the `swan.openDocs` command handler requests
exactly one external open, with the fixed documentation URL as its
argument, and nothing else. -/
theorem openDocs_one_fixed_external_open :
    openDocsHandler = [Effect.openExternal "https://your-swan-docs-url.com"]
    ∧ openDocsHandler.countP isOpenExternal = 1
    ∧ openExternalUris openDocsHandler = ["https://your-swan-docs-url.com"] := by
  refine ⟨rfl, rfl, rfl⟩

/-- C9: `deactivate()` takes no inputs and emits exactly one diagnostic
trace line; it performs no persistent-store writes, creates no terminals,
registrations, or UI elements, and shows no notifications. -/
theorem deactivate_only_one_trace_line :
    deactivate = [Effect.consoleLog "Swan VS Code Extension is now deactivated"]
    ∧ deactivate.countP isConsoleLog = 1
    ∧ deactivate.countP isGlobalStateUpdate = 0
    ∧ deactivate.countP isCreateTerminal = 0
    ∧ deactivate.countP isShowInformationMessage = 0
    ∧ deactivate.countP isCreateStatusBarItemCall = 0 := by
  refine ⟨rfl, rfl, rfl, rfl, rfl, rfl⟩

/-- C10: for every non-empty project name `n`, the `swan.createProject`
handler sends to the new terminal exactly the fixed scaffold prefix
`"pnpm create swan-app "` followed by `n` verbatim, with no quoting,
escaping, trimming, or validation. -/
theorem createProject_sendText_verbatim (n : String) (h : n ≠ "") :
    sendTexts (createProjectHandler (some n)) =
      ["pnpm create swan-app " ++ n] := by
  simp [createProjectHandler, inputTruthy, h, sendTexts]

/-- Witness for C10 at a name full of spaces and shell metacharacters. -/
theorem createProject_sendText_verbatim_witness :
    sendTexts (createProjectHandler (some "a b;$(x)&")) =
      ["pnpm create swan-app " ++ "a b;$(x)&"] :=
  createProject_sendText_verbatim "a b;$(x)&" (by decide)

/-- C2: invoking `swan.createProject` with a non-empty name creates
exactly one terminal, makes exactly one `sendText` call whose text
contains the name as a substring, reveals the terminal, and shows exactly
one confirmation notification; cancelling or supplying an empty value
creates no terminal, sends no text, and shows no notification. -/
theorem createProject_counts (input : Option String) :
    (∀ n, input = some n → n ≠ "" →
      (createProjectHandler input).countP isCreateTerminal = 1
      ∧ (createProjectHandler input).countP isSendText = 1
      ∧ (∃ t, sendTexts (createProjectHandler input) = [t]
          ∧ containsSubstring t n)
      ∧ Effect.showTerminal "Swan Project Setup" ∈ createProjectHandler input
      ∧ (createProjectHandler input).countP isShowInformationMessage = 1)
    ∧ ((input = none ∨ input = some "") →
      (createProjectHandler input).countP isCreateTerminal = 0
      ∧ (createProjectHandler input).countP isSendText = 0
      ∧ (createProjectHandler input).countP isShowInformationMessage = 0) := by
  constructor
  · rintro n rfl hn
    refine ⟨?_, ?_, ⟨"pnpm create swan-app " ++ n, ?_, ?_⟩, ?_, ?_⟩
    · simp [createProjectHandler, inputTruthy, hn, List.countP_cons,
        isCreateTerminal]
    · simp [createProjectHandler, inputTruthy, hn, List.countP_cons,
        isSendText]
    · simp [createProjectHandler, inputTruthy, hn, sendTexts]
    · exact ⟨"pnpm create swan-app ", "", by
        rw [String.append_empty]⟩
    · simp [createProjectHandler, inputTruthy, hn]
    · simp [createProjectHandler, inputTruthy, hn, List.countP_cons,
        isShowInformationMessage]
  · rintro (rfl | rfl) <;>
      refine ⟨rfl, rfl, rfl⟩

/-- Witness for C2 at the inputs `"my-app"` and cancellation. -/
theorem createProject_counts_witness :
    ((createProjectHandler (some "my-app")).countP isCreateTerminal = 1
      ∧ (createProjectHandler (some "my-app")).countP isSendText = 1
      ∧ (∃ t, sendTexts (createProjectHandler (some "my-app")) = [t]
          ∧ containsSubstring t "my-app")
      ∧ Effect.showTerminal "Swan Project Setup" ∈
          createProjectHandler (some "my-app")
      ∧ (createProjectHandler (some "my-app")).countP
          isShowInformationMessage = 1)
    ∧ ((createProjectHandler none).countP isCreateTerminal = 0
      ∧ (createProjectHandler none).countP isSendText = 0
      ∧ (createProjectHandler none).countP isShowInformationMessage = 0) :=
  ⟨(createProject_counts (some "my-app")).1 "my-app" rfl (by decide),
   (createProject_counts none).2 (Or.inl rfl)⟩

/-- C6: a configuration-change event outside the `swan` namespace makes
the registered listener emit nothing; one inside the `swan` namespace
makes it emit exactly one trace line, containing the value currently read
from `swan.logLevel`, and nothing else. -/
theorem configurationChangeListener_trace (event : ConfigurationChangeEvent)
    (config : Configuration) :
    (event.affectsConfiguration "swan" = false →
      configurationChangeListener event config = [])
    ∧ (event.affectsConfiguration "swan" = true →
      ∃ line, configurationChangeListener event config = [Effect.consoleLog line]
        ∧ containsSubstring line config.logLevel
        ∧ (configurationChangeListener event config).countP isConsoleLog = 1) := by
  constructor
  · intro h
    simp [configurationChangeListener, h]
  · intro h
    refine ⟨"Swan log level changed to: " ++ config.logLevel, ?_,
      ⟨"Swan log level changed to: ", "", by rw [String.append_empty]⟩, ?_⟩
    · simp [configurationChangeListener, h]
    · simp [configurationChangeListener, h, isConsoleLog]

/-- Witness for C6 at an event inside the namespace and one outside. -/
theorem configurationChangeListener_trace_witness :
    configurationChangeListener ⟨["editor"]⟩ ⟨"info"⟩ = []
    ∧ ∃ line, configurationChangeListener ⟨["swan"]⟩ ⟨"info"⟩ =
        [Effect.consoleLog line]
      ∧ containsSubstring line "info"
      ∧ (configurationChangeListener ⟨["swan"]⟩ ⟨"info"⟩).countP
          isConsoleLog = 1 :=
  ⟨(configurationChangeListener_trace ⟨["editor"]⟩ ⟨"info"⟩).1 (by decide),
   (configurationChangeListener_trace ⟨["swan"]⟩ ⟨"info"⟩).2 (by decide)⟩

/-- C7: after `activate` on a fresh context, the host's disposal list
holds exactly the three command registration handles and the status-bar
item, in that order, and does not hold the configuration-change
subscription's disposable. -/
theorem activate_subscriptions (gs : GlobalState) (sel : Option String) :
    (activate { subscriptions := [], globalState := gs } sel).subscriptions =
      [Handle.commandRegistration "swan.helloWorld",
       Handle.commandRegistration "swan.openDocs",
       Handle.commandRegistration "swan.createProject",
       Handle.statusBarHandle]
    ∧ Handle.eventSubscription ∉
        (activate { subscriptions := [], globalState := gs } sel).subscriptions := by
  constructor
  · rfl
  · intro hmem
    simp [activate] at hmem

/-- C8: one activation creates the status-bar item exactly once, and the
item it leaves behind is right-aligned at priority 100, bound to
`swan.helloWorld`, visible, with the fixed label and tooltip; no command
handler and not `deactivate` emits any status-bar effect, so the item is
never mutated after its creation. -/
theorem statusBar_created_once_never_mutated (context : ExtensionContext)
    (sel : Option String) (input : Option String)
    (event : ConfigurationChangeEvent) (config : Configuration) :
    (activate context sel).effects.countP isCreateStatusBarItemCall = 1
    ∧ (activate context sel).statusBarItem =
        { alignment := StatusBarAlignment.right, priority := 100,
          text := "$(rocket) Swan", tooltip := some "Swan Development Tools",
          command := some "swan.helloWorld", visible := true }
    ∧ (∀ e ∈ helloWorldHandler ++ openDocsHandler ++ createProjectHandler input
          ++ configurationChangeListener event config ++ deactivate,
        isCreateStatusBarItemCall e = false ∧ isStatusBarShowCall e = false) := by
  refine ⟨?_, rfl, ?_⟩
  · unfold activate
    cases h : globalStateGet context.globalState "swan.hasShownWelcome" false <;>
      simp [h, List.countP_append, List.countP_cons, isCreateStatusBarItemCall,
        welcomeEffect, welcomeThen]
    split <;> simp [isCreateStatusBarItemCall]
  · intro e he
    simp [helloWorldHandler, openDocsHandler, createProjectHandler,
      configurationChangeListener, deactivate, welcomeThen] at he
    rcases he with h | h | h | h | h | h
    · subst h; exact ⟨rfl, rfl⟩
    · subst h; exact ⟨rfl, rfl⟩
    · subst h; exact ⟨rfl, rfl⟩
    · rcases h with ⟨-, h⟩
      rcases h with h | h | h | h <;> subst h <;> exact ⟨rfl, rfl⟩
    · rcases h with ⟨-, h⟩; subst h; exact ⟨rfl, rfl⟩
    · subst h; exact ⟨rfl, rfl⟩

/-- The welcome notification is part of `activate`'s trace exactly when
the persisted flag read at its start is false (or absent). -/
theorem welcome_mem_activate_iff (context : ExtensionContext)
    (sel : Option String) :
    welcomeEffect ∈ (activate context sel).effects ↔
      globalStateGet context.globalState "swan.hasShownWelcome" false = false := by
  unfold activate
  cases h : globalStateGet context.globalState "swan.hasShownWelcome" false <;>
    simp [h, welcomeEffect, welcomeThen]

/-- Whatever the store held before, after `activate` the persisted flag
reads true. -/
theorem activate_flag_reads_true (context : ExtensionContext)
    (sel : Option String) :
    globalStateGet (activate context sel).globalState
      "swan.hasShownWelcome" false = true := by
  unfold activate
  cases h : globalStateGet context.globalState "swan.hasShownWelcome" false <;>
    simp [h, globalStateGet, globalStateUpdateStore] at h ⊢
  exact h

/-- Once the persisted flag reads true, no activation of any later
sequence ever shows the welcome notification. -/
theorem activationTraces_no_welcome (gs : GlobalState)
    (hgs : globalStateGet gs "swan.hasShownWelcome" false = true)
    (sels : List (Option String)) (i : Nat) :
    welcomeEffect ∉ (activationTraces gs sels).getD i [] := by
  induction sels generalizing gs i with
  | nil => simp [activationTraces]
  | cons s rest ih =>
    cases i with
    | zero =>
      rw [activationTraces, List.getD_cons_zero]
      intro hmem
      rw [welcome_mem_activate_iff] at hmem
      simp only [hgs] at hmem
      exact Bool.true_eq_false.mp hmem
    | succ j =>
      rw [activationTraces, List.getD_cons_succ]
      exact ih _ (activate_flag_reads_true _ _) j

end Swan

namespace Swan

/-- C1: for every activate/deactivate sequence of one installation, the
welcome notification is displayed during `activate` exactly when the
persisted flag `swan.hasShownWelcome` reads false or is absent; after
`activate` the flag reads true whatever choice the user made; hence over
any sequence of activations of a fresh installation the welcome
notification appears in the trace of activation `i` exactly when `i = 0`. -/
theorem welcome_first_activation_only (gs : GlobalState) (sel : Option String)
    (sels : List (Option String)) (i : Nat) :
    (welcomeEffect ∈
        (activate { subscriptions := [], globalState := gs } sel).effects ↔
      globalStateGet gs "swan.hasShownWelcome" false = false)
    ∧ globalStateGet
        (activate { subscriptions := [], globalState := gs } sel).globalState
        "swan.hasShownWelcome" false = true
    ∧ (welcomeEffect ∈ (activationTraces freshGlobalState sels).getD i [] ↔
        (i = 0 ∧ sels ≠ [])) := by
  refine ⟨welcome_mem_activate_iff _ _, activate_flag_reads_true _ _, ?_⟩
  cases sels with
  | nil => simp [activationTraces]
  | cons s rest =>
    cases i with
    | zero =>
      rw [activationTraces, List.getD_cons_zero]
      simp [welcome_mem_activate_iff, freshGlobalState, globalStateGet]
    | succ j =>
      rw [activationTraces, List.getD_cons_succ]
      simp only [Nat.succ_ne_zero, false_and, iff_false]
      exact activationTraces_no_welcome _ (activate_flag_reads_true _ _) rest j

/-- C3: the persisted flag `swan.hasShownWelcome` is monotone: `activate`
never records a write of any value other than true, no command handler,
configuration listener, or `deactivate` writes the store at all, a true
flag still reads true after any further activation, re-writing true is
idempotent on the store, and a true flag suppresses the welcome
notification on every later activation. -/
theorem hasShownWelcome_monotone (context : ExtensionContext)
    (sel : Option String) (input : Option String)
    (event : ConfigurationChangeEvent) (config : Configuration)
    (v : Bool) (gs : GlobalState) :
    (Effect.globalStateUpdate "swan.hasShownWelcome" v ∈
        (activate context sel).effects → v = true)
    ∧ (∀ e ∈ helloWorldHandler ++ openDocsHandler ++ createProjectHandler input
          ++ configurationChangeListener event config ++ deactivate,
        isGlobalStateUpdate e = false)
    ∧ (globalStateGet gs "swan.hasShownWelcome" false = true →
        globalStateGet
          (activate { subscriptions := [], globalState := gs } sel).globalState
          "swan.hasShownWelcome" false = true)
    ∧ globalStateUpdateStore
        (globalStateUpdateStore gs "swan.hasShownWelcome" true)
        "swan.hasShownWelcome" true =
      globalStateUpdateStore gs "swan.hasShownWelcome" true
    ∧ (globalStateGet gs "swan.hasShownWelcome" false = true →
        welcomeEffect ∉
          (activate { subscriptions := [], globalState := gs } sel).effects) := by
  refine ⟨?_, ?_, ?_, ?_, ?_⟩
  · intro hmem
    unfold activate at hmem
    cases h : globalStateGet context.globalState "swan.hasShownWelcome" false <;>
      simp [h, welcomeEffect, welcomeThen] at hmem
    rcases hmem with hmem | hmem
    · split at hmem <;> simp at hmem
    · exact hmem
  · intro e he
    simp [helloWorldHandler, openDocsHandler, createProjectHandler,
      configurationChangeListener, deactivate] at he
    rcases he with h | h | h | h | h | h
    · subst h; rfl
    · subst h; rfl
    · subst h; rfl
    · rcases h with ⟨-, h⟩
      rcases h with h | h | h | h <;> subst h <;> rfl
    · rcases h with ⟨-, h⟩; subst h; rfl
    · subst h; rfl
  · intro _
    exact activate_flag_reads_true _ _
  · simp [globalStateUpdateStore, List.filter_filter]
  · intro hflag hmem
    rw [welcome_mem_activate_iff] at hmem
    simp only [hflag] at hmem
    exact Bool.true_eq_false.mp hmem

/-- A store in which the welcome flag is already persisted as true. -/
def flagTrueStore : GlobalState := [("swan.hasShownWelcome", true)]

/-- Witness for C3 at a store whose flag is already true, the update
effect of a fresh activation, and a trace line of `deactivate`. -/
theorem hasShownWelcome_monotone_witness :
    (true : Bool) = true
    ∧ isGlobalStateUpdate
        (Effect.consoleLog "Swan VS Code Extension is now deactivated") = false
    ∧ globalStateGet
        (activate ⟨[], flagTrueStore⟩ none).globalState
        "swan.hasShownWelcome" false = true
    ∧ globalStateUpdateStore
        (globalStateUpdateStore flagTrueStore "swan.hasShownWelcome" true)
        "swan.hasShownWelcome" true =
      globalStateUpdateStore flagTrueStore "swan.hasShownWelcome" true
    ∧ welcomeEffect ∉ (activate ⟨[], flagTrueStore⟩ none).effects := by
  have h := hasShownWelcome_monotone ⟨[], []⟩ none none ⟨[]⟩ ⟨"info"⟩ true
    flagTrueStore
  exact ⟨h.1 (by decide), h.2.1 _ (by decide), h.2.2.1 (by decide),
    h.2.2.2.1, h.2.2.2.2 (by decide)⟩

end Swan
